import Mathlib

/-!
Shallow embedding of `satpy/readers/viirs_edr.py` (VIIRS NOAA enterprise L2
product reader): the `VIIRSJRRFileHandler` base file handler and the
`VIIRSSurfaceReflectanceWithVIHandler` specialization.

Modelling conventions:
* a NetCDF variable (`xr.DataArray`) is a `VarData`: a shape, a grid of values
  (`none` = NaN / masked, mirroring xarray's mask-and-scale NaN convention),
  the `_FillValue` found in the array's `encoding`, and an attribute map;
* an `xr.Dataset` is a `Dataset`: a list of dimension names plus a map from
  variable names to variables;
* fallible Python operations (KeyError / IndexError / ValueError) are
  `Option`-valued, `none` being the raised exception;
* attribute values (CF attributes such as `units`, `valid_range`,
  `flag_meanings`) are an `AttrVal` sum type.
-/

namespace ViirsEdr

/-- A CF attribute value: a string, a list of strings (decoded flag
meanings), an integer scalar, or an integer pair (a `valid_range`). -/
inductive AttrVal where
  | str (s : String)
  | strList (l : List String)
  | int (n : Int)
  | intPair (lo hi : Int)
deriving DecidableEq

/-- The `_FillValue` stored in an array's `encoding`: absent, NaN, or a
numeric (non-NaN) value.  Mirrors the Python test
`fill_value is not None and not np.isnan(fill_value)`. -/
inductive EncFill where
  | absent
  | nan
  | num (v : Int)
deriving DecidableEq

/-- An attribute map: attribute name to optional value. -/
def AttrMap : Type := String → Option AttrVal

/-- Functional update of an attribute map (`data_arr.attrs[k] = v`). -/
def setAttr (a : AttrMap) (k : String) (v : AttrVal) : AttrMap :=
  fun k' => if k' = k then some v else a k'

/-- A NetCDF variable as seen through xarray: shape, 2-D grid of values
(`none` = NaN / masked), encoding fill value, attributes. -/
structure VarData where
  shape : List Nat
  vals : Nat → Nat → Option Int
  encFill : EncFill
  attrs : AttrMap

/-- A NetCDF dataset: dimension names and named variables. -/
structure Dataset where
  dims : List String
  vars : String → Option VarData

/-- A YAML dataset descriptor (`ds_info` dict).  `none` fields model absent
dictionary keys. -/
structure DsInfo where
  name : String
  fileKey : Option String
  fileType : String
  fillValue : Option Int
  validRange : Option (Int × Int)
  units : Option String
  standardName : Option String
deriving DecidableEq

/-- Filename-derived metadata (`filename_info`). -/
structure FilenameInfo where
  platform_shortname : String
  start_time : Int
  end_time : Int
deriving DecidableEq

/-- Which concrete handler class is in use (`VIIRSJRRFileHandler` or the
`VIIRSSurfaceReflectanceWithVIHandler` subclass). -/
inductive HandlerKind where
  | base
  | surfReflVI
deriving DecidableEq

/-- The file handler state after `__init__`. -/
structure Handler where
  kind : HandlerKind
  nc : Dataset
  fileType : String
  platformShortname : String
  sensorName : String

/-! ### Construction (`VIIRSJRRFileHandler.__init__`) -/

/-- Model of `xr.Dataset.rename` on the dimension list: every key of the rename map
must be present, else xarray raises (modelled as `none`). -/
def renameDims (m : List (String × String)) (dims : List String) :
    Option (List String) :=
  if m.all (fun p => dims.contains p.1) then
    some (dims.map (fun d => match m.lookup d with
      | some d' => d'
      | none => d))
  else none

/-- The dimension-normalization logic of `__init__`:
`if 'columns' in self.nc.dims: rename Columns->x, Rows->y;
elif 'Along_Track_375m' in self.nc.dims: rename both the 375m and the 750m
dimension pairs to x/y`.  Note the source tests the lowercase string
`'columns'` while the rename keys are capitalized. -/
def normalizeDims (dims : List String) : Option (List String) :=
  if dims.contains "columns" then
    renameDims [("Columns", "x"), ("Rows", "y")] dims
  else if dims.contains "Along_Track_375m" then
    match renameDims [("Along_Scan_375m", "x"), ("Along_Track_375m", "y")] dims with
    | some d1 => renameDims [("Along_Scan_750m", "x"), ("Along_Track_750m", "y")] d1
    | none => none
  else
    some dims

/-- Update setting the standard_name attribute of variable `name` to `std` when that variable
`name` is present. -/
def tagGeoVar (name std : String) (nc : Dataset) : Dataset :=
  match nc.vars name with
  | some v =>
      { nc with vars := fun k =>
          if k = name then
            some { v with attrs := setAttr v.attrs "standard_name" (AttrVal.str std) }
          else nc.vars k }
  | none => nc

/-- Model of `VIIRSJRRFileHandler.__init__`: open the file, normalize dimension
names, tag `Latitude`/`Longitude` with standard names, record the platform
shortname and fix the sensor name to `"viirs"`.  The platform code is *not*
validated here. -/
def handlerInit (kind : HandlerKind) (ft : String) (fi : FilenameInfo)
    (nc : Dataset) : Option Handler :=
  match normalizeDims nc.dims with
  | none => none
  | some d =>
      let nc1 := tagGeoVar "Longitude" "longitude"
        (tagGeoVar "Latitude" "latitude" { nc with dims := d })
      some { kind := kind, nc := nc1, fileType := ft,
             platformShortname := fi.platform_shortname, sensorName := "viirs" }

/-! ### Platform name, times, rows per scan -/

/-- Association-list lookup with decidable string equality (a Python dict
indexed by string keys; `none` = `KeyError`). -/
def dictLookup : List (String × String) → String → Option String
  | [], _ => none
  | (k, v) :: rest, key => if key = k then some v else dictLookup rest key

/-- The fixed platform lookup table of the `platform_name` property. -/
def platform_dict : List (String × String) :=
  [("NPP", "Suomi-NPP"),
   ("JPSS-1", "NOAA-20"),
   ("J01", "NOAA-20"),
   ("JPSS-2", "NOAA-21"),
   ("J02", "NOAA-21")]

/-- Python `str.upper()` (for the ASCII platform codes in use): uppercase
every character. -/
def pyUpper (s : String) : String := String.mk (s.data.map Char.toUpper)

/-- Model of the `VIIRSJRRFileHandler.platform_name` property:
`platform_dict[platform_path.upper()]` (`none` = `KeyError`). -/
def platform_name (platform_shortname : String) : Option String :=
  dictLookup platform_dict (pyUpper platform_shortname)

/-- The `start_time` property: the filename-derived start timestamp, unchanged. -/
def start_time (fi : FilenameInfo) : Int := fi.start_time

/-- The `end_time` property: the filename-derived end timestamp, unchanged. -/
def end_time (fi : FilenameInfo) : Int := fi.end_time

/-- Model of `rows_per_scans`: `32 if data_arr.shape[1] == 6400 else 16`; `shape[1]`
raises `IndexError` (here `none`) when the shape has fewer than two
dimensions. -/
def rows_per_scans (shape : List Nat) : Option Nat :=
  (shape.get? 1).map (fun n => if n = 6400 then 32 else 16)

/-! ### Invalid-value masking (`VIIRSJRRFileHandler._mask_invalid`) -/

/-- Model of `data_arr.where(data_arr != f)`: mask (set to NaN) exactly the elements
equal to `f`; NaN elements stay NaN. -/
def maskEq (f : Int) (vals : Nat → Nat → Option Int) : Nat → Nat → Option Int :=
  fun i j => (vals i j).bind (fun x => if x = f then none else some x)

/-- Model of `data_arr.where((lo <= data_arr) & (data_arr <= hi))`: mask exactly the
elements outside `[lo, hi]` inclusive; NaN elements stay NaN. -/
def maskRange (lo hi : Int) (vals : Nat → Nat → Option Int) :
    Nat → Nat → Option Int :=
  fun i j => (vals i j).bind (fun x => if lo ≤ x ∧ x ≤ hi then some x else none)

/-- Extract a `valid_range` pair from an attribute value. -/
def asRange : Option AttrVal → Option (Int × Int)
  | some (AttrVal.intPair lo hi) => some (lo, hi)
  | _ => none

/-- Model of `ds_info.get("valid_range", data_arr.attrs.get("valid_range"))`:
descriptor override takes precedence over the source attribute. -/
def effRange (info : DsInfo) (da : VarData) : Option (Int × Int) :=
  match info.validRange with
  | some r => some r
  | none => asRange (da.attrs "valid_range")

/-- Model of `VIIRSJRRFileHandler._mask_invalid`: if the encoding declares a numeric
non-NaN `_FillValue`, xarray already handled masking, return unchanged; else
if the descriptor declares `_FillValue`, mask elements equal to it; else if
a valid range is known, mask elements outside it; else return unchanged. -/
def maskInvalid (info : DsInfo) (da : VarData) : VarData :=
  match da.encFill with
  | EncFill.num _ => da
  | _ =>
    match info.fillValue with
    | some f => { da with vals := maskEq f da.vals }
    | none =>
      match effRange info da with
      | some (lo, hi) => { da with vals := maskRange lo hi da.vals }
      | none => da

/-! ### Surface-reflectance quality mask
(`VIIRSSurfaceReflectanceWithVIHandler`) -/

/-- Source: `has_sun_glint = (qf1 & 0b11000000) > 0`. -/
def has_sun_glint (qf1 : Nat) : Bool := (qf1 &&& 0b11000000) > 0

/-- Source: `is_cloudy = (qf1 & 0b00001100) > 0` (mask everything but
"confident clear"). -/
def is_cloudy (qf1 : Nat) : Bool := (qf1 &&& 0b00001100) > 0

/-- Source: `cloud_quality = (qf1 & 0b00000011) < 0b10`. -/
def cloud_quality (qf1 : Nat) : Bool := (qf1 &&& 0b00000011) < 0b10

/-- Source: `has_snow_or_ice = (qf2 & 0b00100000) > 0`. -/
def has_snow_or_ice (qf2 : Nat) : Bool := (qf2 &&& 0b00100000) > 0

/-- Source: `has_cloud_shadow = (qf2 & 0b00001000) > 0`. -/
def has_cloud_shadow (qf2 : Nat) : Bool := (qf2 &&& 0b00001000) > 0

/-- Source: `water_mask = qf2 & 0b00000111;
has_water = (water_mask <= 0b010) | (water_mask == 0b101)`
(shallow water, deep ocean, arctic). -/
def has_water (qf2 : Nat) : Bool :=
  let water_mask := qf2 &&& 0b00000111
  (water_mask ≤ 0b010) || (water_mask = 0b101)

/-- Source: `has_aerosols = (qf7 & 0b00001100) > 0b1000` (high aerosol quantity). -/
def has_aerosols (qf7 : Nat) : Bool := (qf7 &&& 0b00001100) > 0b1000

/-- Source: `adjacent_to_cloud = (qf7 & 0b00000010) > 0`. -/
def adjacent_to_cloud (qf7 : Nat) : Bool := (qf7 &&& 0b00000010) > 0

/-- The per-pixel `bad_mask` of `_get_veg_index_good_mask`: the disjunction
of the eight per-flag conditions on the three quality bitfields. -/
def badPixel (qf1 qf2 qf7 : Nat) : Bool :=
  has_sun_glint qf1 ||
  is_cloudy qf1 ||
  cloud_quality qf1 ||
  has_snow_or_ice qf2 ||
  has_cloud_shadow qf2 ||
  has_water qf2 ||
  has_aerosols qf7 ||
  adjacent_to_cloud qf7

/-- Read a quality-flag bitfield value at a grid point.  Quality-flag
variables are integer typed without NaN; the `getD 0` default is never
exercised on such variables. -/
def qfAt (v : VarData) (i j : Nat) : Nat := ((v.vals i j).getD 0).toNat

/-- Model of `VIIRSSurfaceReflectanceWithVIHandler._get_veg_index_good_mask`: look up
the three `QF* Surface Reflectance` variables (`none` = `KeyError` when one
is absent), compute the coarse-grid `bad_mask`, upsample by 2x2
nearest-neighbor duplication (`repeat(2, axis=1).repeat(2, axis=0)`, so fine
pixel `(i, j)` copies coarse cell `(i / 2, j / 2)`), and invert. -/
def getVegIndexGoodMask (nc : Dataset) : Option (Nat → Nat → Bool) :=
  match nc.vars "QF1 Surface Reflectance",
        nc.vars "QF2 Surface Reflectance",
        nc.vars "QF7 Surface Reflectance" with
  | some qf1, some qf2, some qf7 =>
      some (fun i j =>
        !(badPixel (qfAt qf1 (i / 2) (j / 2)) (qfAt qf2 (i / 2) (j / 2))
            (qfAt qf7 (i / 2) (j / 2))))
  | _, _, _ => none

/-- Model of `VIIRSSurfaceReflectanceWithVIHandler._mask_invalid`: apply the base
masking, then, when `ds_info["file_key"]` (a `KeyError` when absent) is
`NDVI` or `EVI`, keep only pixels where the vegetation-index good mask is
true (`new_data_arr.where(good_mask)`). -/
def maskInvalidSR (nc : Dataset) (info : DsInfo) (da : VarData) :
    Option VarData :=
  let newDa := maskInvalid info da
  match info.fileKey with
  | none => none
  | some fk =>
      if fk = "NDVI" ∨ fk = "EVI" then
        match getVegIndexGoodMask nc with
        | some good =>
            some { newDa with
                   vals := fun i j => if good i j then newDa.vals i j else none }
        | none => none
      else some newDa

/-- Dynamic dispatch of `self._mask_invalid` on the handler class. -/
def maskDispatch (h : Handler) (info : DsInfo) (da : VarData) :
    Option VarData :=
  match h.kind with
  | HandlerKind.base => some (maskInvalid info da)
  | HandlerKind.surfReflVI => maskInvalidSR h.nc info da

/-! ### Flag meanings, units, `get_dataset` -/

/-- Helper for `pySplit`: split a character list at every separator,
accumulating the current (reversed) token. -/
def splitCharAux (sep : Char) : List Char → List Char → List (List Char)
  | [], acc => [acc.reverse]
  | c :: rest, acc =>
      if c = sep then acc.reverse :: splitCharAux sep rest []
      else splitCharAux sep rest (c :: acc)

/-- Python `str.split(sep)` for a single-character separator: splits at
every occurrence, keeping empty tokens (so `"".split(' ') == ['']` and
`"a  b".split(' ') == ['a', '', 'b']`). -/
def pySplit (s : String) (sep : Char) : List String :=
  (splitCharAux sep s.data []).map (fun cs => String.mk cs)

/-- Model of `VIIRSJRRFileHandler._decode_flag_meanings`: when the `flag_meanings`
attribute is a string with no embedded newline (`"\n" in flag_meanings` is
character membership for the one-character needle), replace it with the
list of its space-delimited tokens (`flag_meanings.split(' ')`); otherwise
leave the array unchanged. -/
def decodeFlagMeanings (da : VarData) : VarData :=
  match da.attrs "flag_meanings" with
  | some (AttrVal.str s) =>
      if s.data.contains '\n' then da
      else
        { da with attrs :=
            setAttr da.attrs "flag_meanings" (AttrVal.strList (pySplit s ' ')) }
  | _ => da

/-- Units resolution of `get_dataset`:
`units = info.get("units", data_arr.attrs.get("units"))`, then
`None`/`"unitless"` normalize to `"1"`. -/
def unitsResolved (info : DsInfo) (src : Option AttrVal) : AttrVal :=
  let r : Option AttrVal :=
    match info.units with
    | some u => some (AttrVal.str u)
    | none => src
  match r with
  | none => AttrVal.str "1"
  | some v => if v = AttrVal.str "unitless" then AttrVal.str "1" else v

/-- The percent conversion of `get_dataset`: `data_arr *= 100.0` when the
resolved unit is `"%"` and the source `units` attribute is `"1"` or
`"unitless"`. -/
def percentScaled (units : AttrVal) (src : Option AttrVal) (da : VarData) :
    VarData :=
  if units = AttrVal.str "%" ∧
      (src = some (AttrVal.str "1") ∨ src = some (AttrVal.str "unitless")) then
    { da with vals := fun i j => (da.vals i j).map (fun x => x * 100) }
  else da

/-- Lines 102-107 of `get_dataset`: resolve and normalize units, apply the
percent conversion, and store the resulting `units` attribute. -/
def applyUnits (info : DsInfo) (da1 : VarData) : VarData :=
  let units := unitsResolved info (da1.attrs "units")
  let da2 := percentScaled units (da1.attrs "units") da1
  { da2 with attrs := setAttr da2.attrs "units" units }

/-- Lines 108-109 of `get_dataset`: apply the descriptor's `standard_name`
override when present. -/
def applyStandardName (info : DsInfo) (da3 : VarData) : VarData :=
  match info.standardName with
  | some sn =>
      { da3 with attrs := setAttr da3.attrs "standard_name" (AttrVal.str sn) }
  | none => da3

/-- Lines 111-112 of `get_dataset`: stamp the `platform_name` and `sensor`
attributes. -/
def stampAttrs (pn sensor : String) (da5 : VarData) : VarData :=
  { da5 with attrs :=
      (setAttr (setAttr da5.attrs "platform_name" (AttrVal.str pn))
        "sensor" (AttrVal.str sensor)) }

/-- Lines 102-114 of `get_dataset`, after the variable has been looked up
and masked: units, standard name, flag meanings, platform (`none` =
`KeyError` for an unknown platform code), sensor, and `rows_per_scan`
(`none` = `IndexError` for a sub-2-dimensional array). -/
def finishDataset (h : Handler) (info : DsInfo) (da1 : VarData) :
    Option VarData :=
  match platform_name h.platformShortname with
  | none => none
  | some pn =>
    match rows_per_scans (stampAttrs pn h.sensorName
        (decodeFlagMeanings (applyStandardName info (applyUnits info da1)))).shape with
    | none => none
    | some rps =>
      some { stampAttrs pn h.sensorName
               (decodeFlagMeanings (applyStandardName info (applyUnits info da1))) with
             attrs := setAttr (stampAttrs pn h.sensorName
                 (decodeFlagMeanings (applyStandardName info (applyUnits info da1)))).attrs
               "rows_per_scan" (AttrVal.int (rps : Int)) }

/-- Model of `VIIRSJRRFileHandler.get_dataset`: look up the variable by
`info['file_key']` (a `KeyError` when the key is absent from the descriptor
or the variable from the file), mask invalid values, then apply the
metadata normalization of `finishDataset`. -/
def getDataset (h : Handler) (info : DsInfo) : Option VarData :=
  match info.fileKey with
  | none => none
  | some fk =>
    match h.nc.vars fk with
    | none => none
    | some da0 =>
      match maskDispatch h info da0 with
      | none => none
      | some da1 => finishDataset h info da1

/-! ### Available datasets (`VIIRSJRRFileHandler.available_datasets`) -/

/-- Modelled from the spec: `BaseFileHandler.file_type_matches` (defined in
`satpy/readers/file_handlers.py`, not part of this tree) returns a non-None
value when the descriptor's declared file type matches this handler's file
type, and `None` otherwise. -/
def fileTypeMatches (handlerFt dsFt : String) : Option Bool :=
  if dsFt = handlerFt then some true else none

/-- One iteration of the `available_datasets` generator loop.  Note the
source has no `continue` after `yield None, ds_info`, so the non-matching
branch falls through to the availability yield as well. -/
def availStep (h : Handler) (p : Option Bool × DsInfo) :
    List (Option Bool × DsInfo) :=
  match p with
  | (some b, ds) => [(some b, ds)]
  | (none, ds) =>
      let file_key := ds.fileKey.getD ds.name
      let tail : List (Option Bool × DsInfo) :=
        [(some ((h.nc.vars file_key).isSome), ds)]
      if fileTypeMatches h.fileType ds.fileType = none then
        (none, ds) :: tail
      else tail

/-- Model of `VIIRSJRRFileHandler.available_datasets`: the concatenation of the
per-descriptor yields. -/
def availableDatasets (h : Handler) (configured : List (Option Bool × DsInfo)) :
    List (Option Bool × DsInfo) :=
  configured.flatMap (availStep h)

/-! ### Shared concrete fixtures -/

/-- A simple 4x4 integer variable with no encoding fill and no attributes. -/
def sampleVar : VarData :=
  { shape := [4, 4], vals := fun _ _ => some 7, encFill := EncFill.absent,
    attrs := fun _ => none }

/-- A file holding exactly one variable, `var_a`. -/
def ncC1 : Dataset :=
  { dims := ["x", "y"], vars := fun k => if k = "var_a" then some sampleVar else none }

/-- A base handler over `ncC1` with file type `ft_a`. -/
def hC1 : Handler :=
  { kind := HandlerKind.base, nc := ncC1, fileType := "ft_a",
    platformShortname := "J01", sensorName := "viirs" }

/-- A descriptor with unresolved availability whose declared file type
`ft_b` does not match the handler's `ft_a`, and whose name is a variable of
the file. -/
def dsC1 : DsInfo :=
  { name := "var_a", fileKey := none, fileType := "ft_b", fillValue := none,
    validRange := none, units := none, standardName := none }

/-- A variable with a NaN encoding fill value holding 5 at the origin and 7
elsewhere. -/
def daMask : VarData :=
  { shape := [2, 2], vals := fun i j => if (i, j) = (0, 0) then some 5 else some 7,
    encFill := EncFill.nan, attrs := fun _ => none }

/-- A descriptor declaring both an explicit fill value 5 and a valid
range. -/
def infoMask : DsInfo :=
  { name := "m", fileKey := some "m", fileType := "ft", fillValue := some 5,
    validRange := some (0, 3), units := none, standardName := none }

/-- A file with only the canonical `x`/`y` dimensions and no variables. -/
def ncXY : Dataset := { dims := ["x", "y"], vars := fun _ => none }

/-- Filename info with the unknown platform code `FOO`. -/
def fiFoo : FilenameInfo :=
  { platform_shortname := "FOO", start_time := 0, end_time := 1 }

/-- Filename info with the known platform code `J01`. -/
def fiJ01 : FilenameInfo :=
  { platform_shortname := "J01", start_time := 0, end_time := 1 }

/-- A descriptor for `var_a` that omits `file_key`, with matching file type
`ft_a`. -/
def infoC7 : DsInfo :=
  { name := "var_a", fileKey := none, fileType := "ft_a", fillValue := none,
    validRange := none, units := none, standardName := none }

/-- The same descriptor with `file_key` explicitly set to its name. -/
def infoC7x : DsInfo := { infoC7 with fileKey := some "var_a" }

/-- A variable whose `flag_meanings` attribute is the single-line string
`"flag_a flag_b flag_c"`. -/
def daFM : VarData :=
  { shape := [2, 2], vals := fun _ _ => some 1, encFill := EncFill.absent,
    attrs := fun k =>
      if k = "flag_meanings" then some (AttrVal.str "flag_a flag_b flag_c")
      else none }

/-- A coarse-grid QF1 bitfield with the sun-glint bits `0b11000000` set
everywhere. -/
def q1W : VarData :=
  { shape := [2, 2], vals := fun _ _ => some 0b11000000,
    encFill := EncFill.absent, attrs := fun _ => none }

/-- A coarse-grid QF2 bitfield that is otherwise clean (land, no snow, no
shadow). -/
def q2W : VarData :=
  { shape := [2, 2], vals := fun _ _ => some 3, encFill := EncFill.absent,
    attrs := fun _ => none }

/-- A coarse-grid QF7 bitfield that is otherwise clean. -/
def q7W : VarData :=
  { shape := [2, 2], vals := fun _ _ => some 0, encFill := EncFill.absent,
    attrs := fun _ => none }

/-- A fine-grid NDVI variable. -/
def daW5 : VarData :=
  { shape := [4, 4], vals := fun _ _ => some 10, encFill := EncFill.absent,
    attrs := fun _ => none }

/-- A surface-reflectance file with NDVI and the three quality-flag
variables. -/
def ncW5 : Dataset :=
  { dims := ["x", "y"],
    vars := fun k =>
      if k = "NDVI" then some daW5
      else if k = "QF1 Surface Reflectance" then some q1W
      else if k = "QF2 Surface Reflectance" then some q2W
      else if k = "QF7 Surface Reflectance" then some q7W
      else none }

/-- The surface-reflectance handler over `ncW5`. -/
def hW5 : Handler :=
  { kind := HandlerKind.surfReflVI, nc := ncW5, fileType := "ft",
    platformShortname := "J01", sensorName := "viirs" }

/-- The NDVI descriptor for `hW5`. -/
def infoW5 : DsInfo :=
  { name := "NDVI", fileKey := some "NDVI", fileType := "ft",
    fillValue := none, validRange := none, units := none, standardName := none }

/-- The concrete masked NDVI array produced over `hW5`. -/
def rW5 : VarData :=
  match maskDispatch hW5 infoW5 daW5 with
  | some r => r
  | none => daW5

/-- A variable with a dimensionless (`"1"`) source unit. -/
def daU : VarData :=
  { shape := [4, 4], vals := fun _ _ => some 2, encFill := EncFill.absent,
    attrs := fun k => if k = "units" then some (AttrVal.str "1") else none }

/-- A file holding `VarU`. -/
def ncU : Dataset :=
  { dims := ["x", "y"], vars := fun k => if k = "VarU" then some daU else none }

/-- A base handler over `ncU`. -/
def hU : Handler :=
  { kind := HandlerKind.base, nc := ncU, fileType := "ft_u",
    platformShortname := "J02", sensorName := "viirs" }

/-- A descriptor for `VarU` overriding units to `"%"`. -/
def infoU : DsInfo :=
  { name := "VarU", fileKey := some "VarU", fileType := "ft_u",
    fillValue := none, validRange := none, units := some "%",
    standardName := none }

/-- The masked `VarU` array (masking is the identity here). -/
def dmU : VarData := maskInvalid infoU daU

/-- The concrete `get_dataset` result for `VarU`. -/
def rU : VarData :=
  match getDataset hU infoU with
  | some r => r
  | none => daU

/-- A variable carrying an unmanaged attribute `extra_attr`. -/
def daF2 : VarData :=
  { shape := [4, 4], vals := fun _ _ => some 1, encFill := EncFill.absent,
    attrs := fun k => if k = "extra_attr" then some (AttrVal.int 7) else none }

/-- A file holding `VarF`. -/
def ncF2 : Dataset :=
  { dims := ["x", "y"], vars := fun k => if k = "VarF" then some daF2 else none }

/-- A base handler over `ncF2`. -/
def hF2 : Handler :=
  { kind := HandlerKind.base, nc := ncF2, fileType := "ft_f",
    platformShortname := "npp", sensorName := "viirs" }

/-- A plain descriptor for `VarF`. -/
def infoF2 : DsInfo :=
  { name := "VarF", fileKey := some "VarF", fileType := "ft_f",
    fillValue := none, validRange := none, units := none, standardName := none }

/-- The concrete `get_dataset` result for `VarF`. -/
def rF2 : VarData :=
  match getDataset hF2 infoF2 with
  | some r => r
  | none => daF2

/-! ### Helper lemmas -/

theorem setAttr_same (a : AttrMap) (k : String) (v : AttrVal) :
    setAttr a k v k = some v := by
  simp [setAttr]

theorem setAttr_other (a : AttrMap) (k : String) (v : AttrVal) (k' : String)
    (h : k' ≠ k) : setAttr a k v k' = a k' := by
  simp [setAttr, h]

theorem maskInvalid_attrs (info : DsInfo) (da : VarData) :
    (maskInvalid info da).attrs = da.attrs := by
  unfold maskInvalid
  (repeat' split) <;> rfl

theorem maskInvalid_shape (info : DsInfo) (da : VarData) :
    (maskInvalid info da).shape = da.shape := by
  unfold maskInvalid
  (repeat' split) <;> rfl

theorem maskInvalidSR_attrs (nc : Dataset) (info : DsInfo) (da dm : VarData)
    (h : maskInvalidSR nc info da = some dm) : dm.attrs = da.attrs := by
  unfold maskInvalidSR at h
  split at h
  · exact absurd h (by simp)
  · split at h
    · split at h
      · rw [Option.some.injEq] at h
        subst h
        exact maskInvalid_attrs info da
      · exact absurd h (by simp)
    · rw [Option.some.injEq] at h
      subst h
      exact maskInvalid_attrs info da

theorem maskDispatch_attrs (h : Handler) (info : DsInfo) (da dm : VarData)
    (hm : maskDispatch h info da = some dm) : dm.attrs = da.attrs := by
  unfold maskDispatch at hm
  split at hm
  · rw [Option.some.injEq] at hm
    subst hm
    exact maskInvalid_attrs info da
  · exact maskInvalidSR_attrs h.nc info da dm hm

theorem decodeFlagMeanings_attr_other (da : VarData) (k : String)
    (h : k ≠ "flag_meanings") :
    (decodeFlagMeanings da).attrs k = da.attrs k := by
  unfold decodeFlagMeanings
  split
  · split
    · rfl
    · exact setAttr_other _ _ _ _ h
  · rfl

theorem decodeFlagMeanings_vals (da : VarData) :
    (decodeFlagMeanings da).vals = da.vals := by
  unfold decodeFlagMeanings
  (repeat' split) <;> rfl

theorem decodeFlagMeanings_shape (da : VarData) :
    (decodeFlagMeanings da).shape = da.shape := by
  unfold decodeFlagMeanings
  (repeat' split) <;> rfl

theorem percentScaled_attrs (u : AttrVal) (src : Option AttrVal) (da : VarData) :
    (percentScaled u src da).attrs = da.attrs := by
  unfold percentScaled
  split <;> rfl

theorem percentScaled_shape (u : AttrVal) (src : Option AttrVal) (da : VarData) :
    (percentScaled u src da).shape = da.shape := by
  unfold percentScaled
  split <;> rfl

theorem applyUnits_attr_other (info : DsInfo) (da : VarData) (k : String)
    (h : k ≠ "units") : (applyUnits info da).attrs k = da.attrs k := by
  have hp := percentScaled_attrs (unitsResolved info (da.attrs "units"))
    (da.attrs "units") da
  simp [applyUnits, setAttr_other, h, hp]

theorem applyUnits_attr_units (info : DsInfo) (da : VarData) :
    (applyUnits info da).attrs "units"
      = some (unitsResolved info (da.attrs "units")) := by
  simp [applyUnits, setAttr_same]

theorem applyUnits_vals (info : DsInfo) (da : VarData) :
    (applyUnits info da).vals
      = (percentScaled (unitsResolved info (da.attrs "units"))
          (da.attrs "units") da).vals := rfl

theorem applyUnits_shape (info : DsInfo) (da : VarData) :
    (applyUnits info da).shape = da.shape := by
  have hp := percentScaled_shape (unitsResolved info (da.attrs "units"))
    (da.attrs "units") da
  simp [applyUnits, hp]

theorem applyStandardName_attr_other (info : DsInfo) (da : VarData)
    (k : String) (h : k ≠ "standard_name") :
    (applyStandardName info da).attrs k = da.attrs k := by
  unfold applyStandardName
  split
  · exact setAttr_other _ _ _ _ h
  · rfl

theorem applyStandardName_of_none (info : DsInfo) (da : VarData)
    (h : info.standardName = none) : applyStandardName info da = da := by
  unfold applyStandardName
  rw [h]

theorem applyStandardName_vals (info : DsInfo) (da : VarData) :
    (applyStandardName info da).vals = da.vals := by
  unfold applyStandardName
  split <;> rfl

theorem applyStandardName_shape (info : DsInfo) (da : VarData) :
    (applyStandardName info da).shape = da.shape := by
  unfold applyStandardName
  split <;> rfl

theorem stampAttrs_attr_other (pn sensor : String) (da : VarData) (k : String)
    (h1 : k ≠ "platform_name") (h2 : k ≠ "sensor") :
    (stampAttrs pn sensor da).attrs k = da.attrs k := by
  simp [stampAttrs, setAttr_other, h1, h2]

theorem stampAttrs_vals (pn sensor : String) (da : VarData) :
    (stampAttrs pn sensor da).vals = da.vals := rfl

/-- Peel a successful `getDataset` into its lookup, masking, and
finalization stages. -/
theorem getDataset_some_elim (h : Handler) (info : DsInfo) (r : VarData)
    (hr : getDataset h info = some r) :
    ∃ fk da0 da1, info.fileKey = some fk ∧ h.nc.vars fk = some da0 ∧
      maskDispatch h info da0 = some da1 ∧ finishDataset h info da1 = some r := by
  unfold getDataset at hr
  cases hfk : info.fileKey with
  | none =>
      simp only [hfk] at hr
      exact absurd hr (by simp)
  | some fk =>
      simp only [hfk] at hr
      cases hvar : h.nc.vars fk with
      | none =>
          simp only [hvar] at hr
          exact absurd hr (by simp)
      | some da0 =>
          simp only [hvar] at hr
          cases hmask : maskDispatch h info da0 with
          | none =>
              simp only [hmask] at hr
              exact absurd hr (by simp)
          | some da1 =>
              simp only [hmask] at hr
              exact ⟨fk, da0, da1, rfl, hvar, hmask, hr⟩

/-- Peel a successful `finishDataset` into its platform and rows-per-scan
stages and the shape of its result. -/
theorem finishDataset_some_elim (h : Handler) (info : DsInfo) (da1 r : VarData)
    (hr : finishDataset h info da1 = some r) :
    ∃ pn rps, platform_name h.platformShortname = some pn ∧
      rows_per_scans (stampAttrs pn h.sensorName
        (decodeFlagMeanings (applyStandardName info (applyUnits info da1)))).shape
        = some rps ∧
      r = { stampAttrs pn h.sensorName
              (decodeFlagMeanings (applyStandardName info (applyUnits info da1))) with
            attrs := (setAttr (stampAttrs pn h.sensorName
                (decodeFlagMeanings (applyStandardName info (applyUnits info da1)))).attrs
              "rows_per_scan" (AttrVal.int (rps : Int))) } := by
  unfold finishDataset at hr
  cases hpn : platform_name h.platformShortname with
  | none =>
      simp only [hpn] at hr
      exact absurd hr (by simp)
  | some pn =>
      simp only [hpn] at hr
      cases hrp : rows_per_scans (stampAttrs pn h.sensorName
          (decodeFlagMeanings (applyStandardName info (applyUnits info da1)))).shape with
      | none =>
          simp only [hrp] at hr
          exact absurd hr (by simp)
      | some rps =>
          simp only [hrp, Option.some.injEq] at hr
          exact ⟨pn, rps, rfl, hrp, hr.symm⟩

/-- Attributes other than the six managed keys pass through
`finishDataset` unchanged. -/
theorem finishDataset_attr_other (h : Handler) (info : DsInfo) (da1 r : VarData)
    (hr : finishDataset h info da1 = some r) (k : String)
    (hk : k ∉ ["units", "standard_name", "flag_meanings", "platform_name",
        "sensor", "rows_per_scan"]) :
    r.attrs k = da1.attrs k := by
  obtain ⟨pn, rps, hpn, hrp, hre⟩ := finishDataset_some_elim h info da1 r hr
  simp only [List.mem_cons, List.not_mem_nil, or_false, not_or] at hk
  obtain ⟨hk1, hk2, hk3, hk4, hk5, hk6⟩ := hk
  subst hre
  show setAttr _ "rows_per_scan" _ k = da1.attrs k
  rw [setAttr_other _ _ _ _ hk6, stampAttrs_attr_other _ _ _ _ hk4 hk5,
    decodeFlagMeanings_attr_other _ _ hk3, applyStandardName_attr_other _ _ _ hk2,
    applyUnits_attr_other _ _ _ hk1]

/-- The `units` attribute produced by `finishDataset`. -/
theorem finishDataset_attr_units (h : Handler) (info : DsInfo) (da1 r : VarData)
    (hr : finishDataset h info da1 = some r) :
    r.attrs "units" = some (unitsResolved info (da1.attrs "units")) := by
  obtain ⟨pn, rps, hpn, hrp, hre⟩ := finishDataset_some_elim h info da1 r hr
  subst hre
  show setAttr (stampAttrs pn h.sensorName
      (decodeFlagMeanings (applyStandardName info (applyUnits info da1)))).attrs
      "rows_per_scan" (AttrVal.int (rps : Int)) "units"
    = some (unitsResolved info (da1.attrs "units"))
  rw [setAttr_other _ _ _ _ (by decide),
    stampAttrs_attr_other _ _ _ _ (by decide) (by decide),
    decodeFlagMeanings_attr_other _ _ (by decide),
    applyStandardName_attr_other _ _ _ (by decide), applyUnits_attr_units]

/-- Without a descriptor override, `finishDataset` leaves `standard_name`
unchanged. -/
theorem finishDataset_attr_std (h : Handler) (info : DsInfo) (da1 r : VarData)
    (hr : finishDataset h info da1 = some r) (hsn : info.standardName = none) :
    r.attrs "standard_name" = da1.attrs "standard_name" := by
  obtain ⟨pn, rps, hpn, hrp, hre⟩ := finishDataset_some_elim h info da1 r hr
  subst hre
  show setAttr (stampAttrs pn h.sensorName
      (decodeFlagMeanings (applyStandardName info (applyUnits info da1)))).attrs
      "rows_per_scan" (AttrVal.int (rps : Int)) "standard_name"
    = da1.attrs "standard_name"
  rw [setAttr_other _ _ _ _ (by decide),
    stampAttrs_attr_other _ _ _ _ (by decide) (by decide),
    decodeFlagMeanings_attr_other _ _ (by decide),
    applyStandardName_of_none _ _ hsn, applyUnits_attr_other _ _ _ (by decide)]

/-- The values produced by `finishDataset` are those of the masked array
after the possible percent conversion. -/
theorem finishDataset_vals (h : Handler) (info : DsInfo) (da1 r : VarData)
    (hr : finishDataset h info da1 = some r) :
    r.vals = (percentScaled (unitsResolved info (da1.attrs "units"))
        (da1.attrs "units") da1).vals := by
  obtain ⟨pn, rps, hpn, hrp, hre⟩ := finishDataset_some_elim h info da1 r hr
  subst hre
  show (stampAttrs pn h.sensorName
      (decodeFlagMeanings (applyStandardName info (applyUnits info da1)))).vals
    = (percentScaled (unitsResolved info (da1.attrs "units"))
        (da1.attrs "units") da1).vals
  rw [stampAttrs_vals, decodeFlagMeanings_vals, applyStandardName_vals,
    applyUnits_vals]

/-! ### Claim theorems -/

/-- C1: evaluating `available_datasets` on a single input pair
`(None, descriptor)` whose declared file type does not match the handler's:
the code yields TWO pairs, `(None, descriptor)` followed by
`(True, descriptor)`, instead of exactly one pair per input pair — the
`yield None` branch falls through (missing `continue`) into the
availability yield. -/
theorem availableDatasets_double_yield :
    availableDatasets hC1 [(none, dsC1)] = [(none, dsC1), (some true, dsC1)] := rfl

/-- C2: evaluating the dimension-normalization logic of `__init__` on a file
using the plain `Columns`/`Rows` convention: the guard tests the lowercase
string `'columns'`, which is never a dimension name, so the dimensions are
left as `Columns`/`Rows` instead of being renamed to `x`/`y`. -/
theorem columns_dims_not_renamed :
    normalizeDims ["Columns", "Rows"] = some ["Columns", "Rows"] := rfl

/-- C8 counterexample: for a one-dimensional shape, `rows_per_scans` is not
defined (Python `shape[1]` raises `IndexError`), contradicting the claim
that it returns 16 for any input shape whose second dimension is not
6400. -/
theorem rows_per_scans_one_dim :
    rows_per_scans [5120] = none ∧ rows_per_scans [5120] ≠ some 16 := by
  decide

/-- C8 (amended): for every shape with at least two dimensions,
`rows_per_scans` returns 32 iff the second dimension is 6400 and 16
otherwise, as a pure function of the shape; for shapes with fewer than two
dimensions it is undefined (`IndexError`). -/
theorem rows_per_scans_spec (shape : List Nat) :
    (∀ n, shape.get? 1 = some n →
        rows_per_scans shape = some (if n = 6400 then 32 else 16)) ∧
    (rows_per_scans shape = some 32 ↔ shape.get? 1 = some 6400) ∧
    (shape.get? 1 = none → rows_per_scans shape = none) := by
  refine ⟨fun n h => by unfold rows_per_scans; rw [h]; rfl, ?_,
      fun h => by unfold rows_per_scans; rw [h]; rfl⟩
  constructor
  · intro h
    unfold rows_per_scans at h
    cases hs : shape.get? 1 with
    | none =>
        rw [hs] at h
        exact absurd h (by simp)
    | some n =>
        rw [hs] at h
        simp only [Option.map_some', Option.some.injEq] at h
        by_cases hn : n = 6400
        · rw [hn]
        · rw [if_neg hn] at h
          exact absurd h (by decide)
  · intro h
    unfold rows_per_scans
    rw [h]
    rfl

/-- C8 witness: `rows_per_scans` evaluated through the amended theorem at a
6400-column shape and at a non-6400-column shape. -/
theorem rows_per_scans_spec_witness :
    rows_per_scans [100, 6400] = some 32 ∧ rows_per_scans [100, 640] = some 16 := by
  refine ⟨(rows_per_scans_spec [100, 6400]).2.1.mpr rfl, ?_⟩
  simpa using (rows_per_scans_spec [100, 640]).1 640 rfl

/-- C9: when the `flag_meanings` attribute is a string with no embedded
newline, `_decode_flag_meanings` replaces it with the ordered list of its
space-delimited tokens and changes nothing else; a string containing a
newline, or a non-string (or absent) attribute, leaves the array
unmodified. -/
theorem decode_flag_meanings_spec (da : VarData) :
    (∀ s, da.attrs "flag_meanings" = some (AttrVal.str s) →
        '\n' ∉ s.data →
        ((decodeFlagMeanings da).attrs "flag_meanings"
            = some (AttrVal.strList (pySplit s ' ')) ∧
         (∀ k, k ≠ "flag_meanings" →
            (decodeFlagMeanings da).attrs k = da.attrs k) ∧
         (decodeFlagMeanings da).vals = da.vals)) ∧
    (∀ s, da.attrs "flag_meanings" = some (AttrVal.str s) →
        '\n' ∈ s.data → decodeFlagMeanings da = da) ∧
    ((∀ s, da.attrs "flag_meanings" ≠ some (AttrVal.str s)) →
        decodeFlagMeanings da = da) := by
  refine ⟨?_, ?_, ?_⟩
  · intro s hs hnl
    refine ⟨?_, fun k hk => decodeFlagMeanings_attr_other da k hk,
        decodeFlagMeanings_vals da⟩
    simp [decodeFlagMeanings, hs, hnl, setAttr_same]
  · intro s hs hnl
    simp [decodeFlagMeanings, hs, hnl]
  · intro hne
    cases hfm : da.attrs "flag_meanings" with
    | none => simp [decodeFlagMeanings, hfm]
    | some v =>
        cases v with
        | str s => exact absurd hfm (hne s)
        | strList l => simp [decodeFlagMeanings, hfm]
        | int n => simp [decodeFlagMeanings, hfm]
        | intPair lo hi => simp [decodeFlagMeanings, hfm]

/-- Elementwise characterization of fill-value masking. -/
theorem maskEq_some_iff (f : Int) (vals : Nat → Nat → Option Int) (i j : Nat)
    (x : Int) :
    maskEq f vals i j = some x ↔ (vals i j = some x ∧ x ≠ f) := by
  unfold maskEq
  cases hv : vals i j with
  | none => simp
  | some y => by_cases hyf : y = f <;> simp [hyf] <;> aesop

/-- Elementwise characterization of valid-range masking. -/
theorem maskRange_some_iff (lo hi : Int) (vals : Nat → Nat → Option Int)
    (i j : Nat) (x : Int) :
    maskRange lo hi vals i j = some x ↔
      (vals i j = some x ∧ lo ≤ x ∧ x ≤ hi) := by
  unfold maskRange
  cases hv : vals i j with
  | none => simp
  | some y => by_cases hr : lo ≤ y ∧ y ≤ hi <;> simp [hr] <;> aesop

/-- When the encoding holds no numeric fill value, `_mask_invalid` falls
through to the descriptor fill / valid-range rules. -/
theorem maskInvalid_of_not_num (info : DsInfo) (da : VarData)
    (hnum : ∀ f, da.encFill ≠ EncFill.num f) :
    maskInvalid info da =
      (match info.fillValue with
       | some f => { da with vals := maskEq f da.vals }
       | none =>
         match effRange info da with
         | some (lo, hi) => { da with vals := maskRange lo hi da.vals }
         | none => da) := by
  unfold maskInvalid
  cases henc : da.encFill with
  | num v => exact absurd henc (hnum v)
  | absent => rfl
  | nan => rfl

/-- C4: `_mask_invalid` applies exactly the first applicable rule: a
numeric non-NaN encoding fill value suppresses all further masking; else a
descriptor fill value masks exactly the elements equal to it; else a known
valid range (descriptor override over source attribute) masks exactly the
elements outside `[min, max]` inclusive; else nothing is masked. -/
theorem mask_invalid_priority (info : DsInfo) (da : VarData) :
    (∀ f, da.encFill = EncFill.num f → maskInvalid info da = da) ∧
    ((∀ f, da.encFill ≠ EncFill.num f) → ∀ f, info.fillValue = some f →
        ∀ i j x, ((maskInvalid info da).vals i j = some x ↔
          (da.vals i j = some x ∧ x ≠ f))) ∧
    ((∀ f, da.encFill ≠ EncFill.num f) → info.fillValue = none →
        ∀ lo hi, effRange info da = some (lo, hi) →
        ∀ i j x, ((maskInvalid info da).vals i j = some x ↔
          (da.vals i j = some x ∧ lo ≤ x ∧ x ≤ hi))) ∧
    ((∀ f, da.encFill ≠ EncFill.num f) → info.fillValue = none →
        effRange info da = none → maskInvalid info da = da) ∧
    (∀ r, info.validRange = some r → effRange info da = some r) := by
  refine ⟨?_, ?_, ?_, ?_, ?_⟩
  · intro f hf
    unfold maskInvalid
    rw [hf]
  · intro hnum f hf i j x
    rw [maskInvalid_of_not_num info da hnum, hf]
    exact maskEq_some_iff f da.vals i j x
  · intro hnum hfv lo hi hr i j x
    rw [maskInvalid_of_not_num info da hnum, hfv, hr]
    exact maskRange_some_iff lo hi da.vals i j x
  · intro hnum hfv hre
    rw [maskInvalid_of_not_num info da hnum, hfv, hre]
  · intro r hr
    unfold effRange
    rw [hr]

/-- C4 witness: with a NaN encoding fill and descriptor fill 5, element 7
survives and element 5 is masked. -/
theorem mask_invalid_priority_witness :
    ((maskInvalid infoMask daMask).vals 0 1 = some 7 ↔
      (daMask.vals 0 1 = some 7 ∧ (7 : Int) ≠ 5)) ∧
    (maskInvalid infoMask daMask).vals 0 0 = none := by
  refine ⟨(mask_invalid_priority infoMask daMask).2.1
      (fun f h => EncFill.noConfusion h) 5 rfl 0 1 7, ?_⟩
  decide

/-- C3 counterexample: handler construction with the unknown platform code
`FOO` succeeds — `__init__` performs no platform validation — even though
the platform table lookup for `FOO` fails. -/
theorem init_unknown_platform_succeeds :
    (handlerInit HandlerKind.base "ft" fiFoo ncXY).isSome = true ∧
    platform_name "FOO" = none := by
  exact ⟨rfl, by decide⟩

/-- C3 (amended): construction does not validate the platform code (its
success is independent of the filename info); the lookup error for a code
outside the five known values (case-insensitively) surfaces when the
`platform_name` property is evaluated — in particular `get_dataset` fails
then — and the known codes map case-insensitively through the fixed
table. -/
theorem platform_name_spec :
    (∀ k ft (fi fi' : FilenameInfo) nc,
        (handlerInit k ft fi nc).isSome = (handlerInit k ft fi' nc).isSome) ∧
    (∀ code : String,
        pyUpper code ∉ ["NPP", "JPSS-1", "J01", "JPSS-2", "J02"] →
        platform_name code = none) ∧
    (∀ h info, platform_name h.platformShortname = none →
        getDataset h info = none) ∧
    platform_name "J01" = some "NOAA-20" ∧
    platform_name "npp" = some "Suomi-NPP" ∧
    platform_name "jpss-1" = some "NOAA-20" ∧
    platform_name "NPP" = some "Suomi-NPP" ∧
    platform_name "J02" = some "NOAA-21" ∧
    platform_name "jpss-2" = some "NOAA-21" := by
  refine ⟨?_, ?_, ?_, by decide, by decide, by decide, by decide, by decide,
      by decide⟩
  · intro k ft fi fi' nc
    unfold handlerInit
    cases h : normalizeDims nc.dims <;> rfl
  · intro code h
    simp only [List.mem_cons, List.not_mem_nil, or_false, not_or] at h
    obtain ⟨h1, h2, h3, h4, h5⟩ := h
    simp [platform_name, platform_dict, dictLookup, h1, h2, h3, h4, h5]
  · intro h info hpn
    unfold getDataset
    split
    · rfl
    · split
      · rfl
      · split
        · rfl
        · unfold finishDataset
          rw [hpn]

/-- C3 witness: the amended theorem applied at the concrete unknown code
`FOO` and at two concrete filename infos. -/
theorem platform_name_spec_witness :
    platform_name "FOO" = none ∧
    (handlerInit HandlerKind.base "ft" fiFoo ncXY).isSome
      = (handlerInit HandlerKind.base "ft" fiJ01 ncXY).isSome :=
  ⟨platform_name_spec.2.1 "FOO" (by decide),
   platform_name_spec.1 HandlerKind.base "ft" fiFoo fiJ01 ncXY⟩

/-- C7 counterexample: for a descriptor omitting `file_key`, `get_dataset`
fails (Python `info['file_key']` raises `KeyError`) while the identical
descriptor with `file_key` set to its name succeeds; only
`available_datasets` applies the name default. -/
theorem file_key_default_counterexample :
    (getDataset hC1 infoC7).isSome = false ∧
    (getDataset hC1 infoC7x).isSome = true ∧
    availableDatasets hC1 [(none, infoC7)] = [(some true, infoC7)] :=
  ⟨rfl, rfl, rfl⟩

/-- C7 (amended): `file_key` defaults to `name` only in
`available_datasets`; `get_dataset` and the surface-reflectance masking
override read `file_key` directly and fail with a lookup error when the
descriptor omits it. -/
theorem file_key_default_spec :
    (∀ h info, info.fileKey = none → getDataset h info = none) ∧
    (∀ (nc : Dataset) (info : DsInfo) (da : VarData), info.fileKey = none →
        maskInvalidSR nc info da = none) ∧
    (∀ h info, info.fileKey = none →
        (availableDatasets h [(none, info)]).map Prod.fst
          = (availableDatasets h
              [(none, { info with fileKey := some info.name })]).map Prod.fst) := by
  refine ⟨?_, ?_, ?_⟩
  · intro h info hk
    unfold getDataset
    rw [hk]
  · intro nc info da hk
    unfold maskInvalidSR
    rw [hk]
  · intro h info hk
    by_cases hm : fileTypeMatches h.fileType info.fileType = none <;>
      simp [availableDatasets, availStep, hk, hm]

/-- C7 witness: the amended theorem applied at the concrete descriptor
`infoC7` and handler `hC1`. -/
theorem file_key_default_spec_witness :
    getDataset hC1 infoC7 = none ∧
    (availableDatasets hC1 [(none, infoC7)]).map Prod.fst
      = (availableDatasets hC1
          [(none, { infoC7 with fileKey := some infoC7.name })]).map Prod.fst :=
  ⟨file_key_default_spec.1 hC1 infoC7 rfl,
   file_key_default_spec.2.2 hC1 infoC7 rfl⟩

/-- C9 witness: the concrete split of `"flag_a flag_b flag_c"`. -/
theorem decode_flag_meanings_witness :
    (decodeFlagMeanings daFM).attrs "flag_meanings"
      = some (AttrVal.strList ["flag_a", "flag_b", "flag_c"]) := by
  have h := ((decode_flag_meanings_spec daFM).1 "flag_a flag_b flag_c" rfl
      (by decide)).1
  rw [h]
  decide

/-- C5: for the surface-reflectance handler and a requested NDVI/EVI
variable, a coarse-grid pixel is bad iff at least one of the eight bit
conditions holds, and every fine-grid pixel whose coarse cell
`(i / 2, j / 2)` is bad is masked from the returned array. -/
theorem veg_index_mask_spec (h : Handler) (info : DsInfo) (fk : String)
    (q1 q2 q7 da r : VarData)
    (hkind : h.kind = HandlerKind.surfReflVI)
    (hfk : info.fileKey = some fk)
    (hvi : fk = "NDVI" ∨ fk = "EVI")
    (h1 : h.nc.vars "QF1 Surface Reflectance" = some q1)
    (h2 : h.nc.vars "QF2 Surface Reflectance" = some q2)
    (h7 : h.nc.vars "QF7 Surface Reflectance" = some q7)
    (hr : maskDispatch h info da = some r) :
    (∀ a b c : Nat, (badPixel a b c = true ↔
        ((a &&& 0b11000000) ≠ 0 ∨ (a &&& 0b00001100) ≠ 0 ∨
         (a &&& 0b00000011) < 0b10 ∨ (b &&& 0b00100000) ≠ 0 ∨
         (b &&& 0b00001000) ≠ 0 ∨
         ((b &&& 0b00000111) ≤ 0b010 ∨ (b &&& 0b00000111) = 0b101) ∨
         (c &&& 0b00001100) > 0b1000 ∨ (c &&& 0b00000010) ≠ 0))) ∧
    (∀ i j, badPixel (qfAt q1 (i / 2) (j / 2)) (qfAt q2 (i / 2) (j / 2))
        (qfAt q7 (i / 2) (j / 2)) = true → r.vals i j = none) := by
  constructor
  · intro a b c
    simp only [badPixel, has_sun_glint, is_cloudy, cloud_quality,
      has_snow_or_ice, has_cloud_shadow, has_water, has_aerosols,
      adjacent_to_cloud, Bool.or_eq_true, decide_eq_true_eq,
      Nat.pos_iff_ne_zero]
    tauto
  · intro i j hbad
    unfold maskDispatch at hr
    simp only [hkind] at hr
    unfold maskInvalidSR at hr
    simp only [hfk] at hr
    rw [if_pos hvi] at hr
    unfold getVegIndexGoodMask at hr
    simp only [h1, h2, h7] at hr
    rw [Option.some.injEq] at hr
    subst hr
    simp [hbad]

/-- C5 witness: with QF1 = `0b11000000` everywhere, the whole 2x2 fine-grid
block over coarse cell (0, 0) is masked out of NDVI. -/
theorem veg_index_mask_spec_witness :
    rW5.vals 0 0 = none ∧ rW5.vals 0 1 = none ∧ rW5.vals 1 0 = none ∧
    rW5.vals 1 1 = none := by
  have h := (veg_index_mask_spec hW5 infoW5 "NDVI" q1W q2W q7W daW5 rW5 rfl rfl
      (Or.inl rfl) rfl rfl rfl rfl).2
  exact ⟨h 0 0 (by decide), h 0 1 (by decide), h 1 0 (by decide),
    h 1 1 (by decide)⟩

/-- C6: the output `units` attribute is the descriptor override when
present, else the source attribute, with `None`/`"unitless"` normalizing to
`"1"`; and a resolved `"%"` over a dimensionless source multiplies every
value of the (masked) array by 100 and sets `units` to `"%"`. -/
theorem get_dataset_units (h : Handler) (info : DsInfo) (fk : String)
    (da0 da1 r : VarData)
    (hfk : info.fileKey = some fk)
    (hvar : h.nc.vars fk = some da0)
    (hmask : maskDispatch h info da0 = some da1)
    (hr : getDataset h info = some r) :
    (∀ u, info.units = some u →
        r.attrs "units"
          = some (if u = "unitless" then AttrVal.str "1" else AttrVal.str u)) ∧
    (info.units = none → da0.attrs "units" = none →
        r.attrs "units" = some (AttrVal.str "1")) ∧
    (info.units = none → da0.attrs "units" = some (AttrVal.str "unitless") →
        r.attrs "units" = some (AttrVal.str "1")) ∧
    (info.units = some "%" →
        (da0.attrs "units" = some (AttrVal.str "1") ∨
         da0.attrs "units" = some (AttrVal.str "unitless")) →
        ((∀ i j, r.vals i j = (da1.vals i j).map (fun x => x * 100)) ∧
         r.attrs "units" = some (AttrVal.str "%"))) := by
  obtain ⟨fk', da0', da1', hfk', hvar', hmask', hfin⟩ :=
    getDataset_some_elim h info r hr
  rw [hfk] at hfk'
  injection hfk' with e1
  subst e1
  rw [hvar] at hvar'
  injection hvar' with e2
  subst e2
  rw [hmask] at hmask'
  injection hmask' with e3
  subst e3
  have hu : r.attrs "units" = some (unitsResolved info (da1.attrs "units")) :=
    finishDataset_attr_units h info da1 r hfin
  have hattrs : da1.attrs "units" = da0.attrs "units" :=
    congrFun (maskDispatch_attrs h info da0 da1 hmask) "units"
  refine ⟨?_, ?_, ?_, ?_⟩
  · intro u huu
    rw [hu]
    unfold unitsResolved
    rw [huu]
    by_cases hc : u = "unitless" <;> simp [hc]
  · intro hiu hsu
    rw [hu]
    unfold unitsResolved
    rw [hiu, hattrs, hsu]
  · intro hiu hsu
    rw [hu]
    unfold unitsResolved
    rw [hiu, hattrs, hsu]
    simp
  · intro hiu hsu
    have hres : unitsResolved info (da1.attrs "units") = AttrVal.str "%" := by
      simp [unitsResolved, hiu]
    have hcond : unitsResolved info (da1.attrs "units") = AttrVal.str "%" ∧
        (da1.attrs "units" = some (AttrVal.str "1") ∨
         da1.attrs "units" = some (AttrVal.str "unitless")) := by
      refine ⟨hres, ?_⟩
      rw [hattrs]
      exact hsu
    have hvals := finishDataset_vals h info da1 r hfin
    constructor
    · intro i j
      rw [hvals]
      unfold percentScaled
      rw [if_pos hcond]
    · rw [hu, hres]

/-- C6 witness: descriptor unit `"%"` over source unit `"1"` multiplies the
value 2 into 200 and sets `units` to `"%"`. -/
theorem get_dataset_units_witness :
    rU.attrs "units" = some (AttrVal.str "%") ∧ rU.vals 0 0 = some 200 := by
  have h := (get_dataset_units hU infoU "VarU" daU dmU rU rfl rfl rfl rfl).2.2.2
    rfl (Or.inl rfl)
  refine ⟨h.2, ?_⟩
  rw [h.1 0 0]
  rfl

/-- C10: every attribute of the source variable other than the six managed
keys (`units`, `standard_name`, `flag_meanings`, `platform_name`, `sensor`,
`rows_per_scan`) is present and unchanged in the returned array, and
`standard_name` is changed only when the descriptor supplies one. -/
theorem get_dataset_frame (h : Handler) (info : DsInfo) (fk : String)
    (da0 r : VarData)
    (hfk : info.fileKey = some fk)
    (hvar : h.nc.vars fk = some da0)
    (hr : getDataset h info = some r) :
    (∀ k, k ∉ ["units", "standard_name", "flag_meanings", "platform_name",
        "sensor", "rows_per_scan"] → r.attrs k = da0.attrs k) ∧
    (info.standardName = none →
        r.attrs "standard_name" = da0.attrs "standard_name") := by
  obtain ⟨fk', da0', da1, hfk', hvar', hmask, hfin⟩ :=
    getDataset_some_elim h info r hr
  rw [hfk] at hfk'
  injection hfk' with e1
  subst e1
  rw [hvar] at hvar'
  injection hvar' with e2
  subst e2
  have hattrs := maskDispatch_attrs h info da0 da1 hmask
  constructor
  · intro k hk
    rw [finishDataset_attr_other h info da1 r hfin k hk]
    exact congrFun hattrs k
  · intro hsn
    rw [finishDataset_attr_std h info da1 r hfin hsn]
    exact congrFun hattrs "standard_name"

/-- C10 witness: the unmanaged attribute `extra_attr` and the untouched
`standard_name` pass through `get_dataset` unchanged. -/
theorem get_dataset_frame_witness :
    rF2.attrs "extra_attr" = some (AttrVal.int 7) ∧
    rF2.attrs "standard_name" = none := by
  have h := get_dataset_frame hF2 infoF2 "VarF" daF2 rF2 rfl rfl rfl
  constructor
  · rw [h.1 "extra_attr" (by decide)]
    rfl
  · rw [h.2 rfl]
    rfl

end ViirsEdr
